import Mathlib

/-!
Shallow embedding of `src/archobjects/window_presets.py`.

Geometry is modelled over exact rationals (the Python code uses numeric
literals only; all claims are about the symbolic arithmetic, not about
floating-point rounding).  A FreeCAD `Part` shape is modelled by the
`Shape` inductive: an extruded filled face (`solid`, carrying its polygon
loop and extrusion vector) or a `compound` of parts; both carry the
mutable `Placement` (rotation is always `ROT0` in this file, so a
placement is just a translation vector).  Python `print` calls become an
explicit warnings list, and Python's division (which raises
`ZeroDivisionError` on a zero divisor) becomes `pydiv` returning
`Except`.
-/

set_option linter.unusedVariables false

namespace WindowPresets

/-- A 3D vector with rational coordinates, `FreeCAD.Vector`. -/
structure Vec3 where
  x : ℚ
  y : ℚ
  z : ℚ
deriving DecidableEq, Repr

/-- `VZOR = App.Vector(0, 0, 0)`, the default placement. -/
def VZOR : Vec3 := ⟨0, 0, 0⟩

/-- A `Part` shape: either a filled face extruded along `dir`
(`makeFilledFace` + `extrude`, keeping the polygon loop), or a compound
of parts (`makeCompound`).  Every shape carries its `Placement`
translation (rotation is always the identity here). -/
inductive Shape where
  | solid (placement : Vec3) (loop : List Vec3) (dir : Vec3)
  | compound (placement : Vec3) (parts : List Shape)
deriving Repr

/-- Assigning `shape.Placement = Placement(v, ROT0)`. -/
def Shape.setPlacement : Shape → Vec3 → Shape
  | .solid _ loop dir, p => .solid p loop dir
  | .compound _ parts, p => .compound p parts

/-- The `Placement` translation of a shape. -/
def Shape.placement : Shape → Vec3
  | .solid p _ _ => p
  | .compound p _ => p

/-- Number of solids in the fully flattened shape. -/
def Shape.solidCount : Shape → ℕ
  | .solid _ _ _ => 1
  | .compound _ parts => go parts
where
  /-- Total solid count of a list of shapes. -/
  go : List Shape → ℕ
  | [] => 0
  | s :: rest => s.solidCount + go rest

/-- The immediate parts of a compound (a bare solid has none). -/
def Shape.topParts : Shape → List Shape
  | .solid _ _ _ => []
  | .compound _ parts => parts

/-- The polygon loop of a solid (a compound has none). -/
def Shape.loopPoints : Shape → List Vec3
  | .solid _ loop _ => loop
  | .compound _ _ => []

/-- `frame_rectangular(tel_w, tel_h, tel_ww, tel_wh, tel_th)`: the shape
of a rectangular frame, four trapezoidal legs (bottom, right, top, left)
each filled and extruded by `tel_th` along `y`, grouped in a compound. -/
def frame_rectangular (tel_w tel_h tel_ww tel_wh tel_th : ℚ) : Shape :=
  let i_tel_w := tel_w - tel_ww * 2
  let i_tel_h := tel_h - tel_wh * 2
  let ep0 : Vec3 := ⟨tel_w * (-0.5), 0, 0⟩
  let ep1 : Vec3 := ⟨tel_w * 0.5, 0, 0⟩
  let ep2 : Vec3 := ⟨tel_w * 0.5, 0, tel_h⟩
  let ep3 : Vec3 := ⟨tel_w * (-0.5), 0, tel_h⟩
  let ip0 : Vec3 := ⟨i_tel_w * (-0.5), 0, tel_ww⟩
  let ip1 : Vec3 := ⟨i_tel_w * 0.5, 0, tel_ww⟩
  let ip2 : Vec3 := ⟨i_tel_w * 0.5, 0, tel_ww + i_tel_h⟩
  let ip3 : Vec3 := ⟨i_tel_w * (-0.5), 0, tel_ww + i_tel_h⟩
  let tel_fbs := Shape.solid VZOR [ep0, ep1, ip1, ip0, ep0] ⟨0, tel_th, 0⟩
  let tel_frs := Shape.solid VZOR [ep1, ep2, ip2, ip1, ep1] ⟨0, tel_th, 0⟩
  let tel_fts := Shape.solid VZOR [ep2, ep3, ip3, ip2, ep2] ⟨0, tel_th, 0⟩
  let tel_fls := Shape.solid VZOR [ep3, ep0, ip0, ip3, ep3] ⟨0, tel_th, 0⟩
  Shape.compound VZOR [tel_fbs, tel_frs, tel_fts, tel_fls]

/-- `glass(ea_w, ea_h, ef_w, ef_h, v_a, frame_th, glass_th)`: the shape
of a rectangular glass panel, one filled face extruded by `glass_th`. -/
def glass (ea_w ea_h ef_w ef_h v_a frame_th glass_th : ℚ) : Shape :=
  let v_w := ea_w - ef_w + v_a * 2
  let v_h := ea_h - ef_h + v_a * 2
  let vp0 : Vec3 := ⟨v_w * (-0.5), 0, ef_w - v_a⟩
  let vp1 : Vec3 := ⟨v_w * 0.5, 0, ef_w - v_a⟩
  let vp2 : Vec3 := ⟨v_w * 0.5, 0, ef_h - v_a + v_h⟩
  let vp3 : Vec3 := ⟨v_w * (-0.5), 0, ef_h - v_a + v_h⟩
  Shape.solid VZOR [vp0, vp1, vp2, vp3, vp0] ⟨0, glass_th, 0⟩

example : (frame_rectangular 10 10 1 2 1).solidCount = 4 := by decide
example : (glass 10 10 2 4 0 1 1).loopPoints.map Vec3.z = [2, 2, 10, 10, 2] := by
  simp [glass, Shape.loopPoints]

/-- Division as performed by Python's `/`: a zero divisor raises
`ZeroDivisionError` instead of producing a value. -/
def pydiv (a b : ℚ) : Except String ℚ :=
  if b = 0 then .error "ZeroDivisionError" else .ok (a / b)

/-- The warning printed by `window_single_pane` when the light factor is
below 0.40. -/
def warning_msg : String :=
  "Too Many panes in the window resulting in < 40% of the opening"

/-- Outcome of one `window_single_pane` call: the warnings printed during
the call and the returned value (`none` models Python's bare `return`). -/
structure WindowResult where
  warnings : List String
  shape : Option Shape
deriving Repr

/-- The x-offset of the multi-pane loop body for 1-based counter `cnt`:
`adv_x = (cnt - 1) * fact_w; ofx = (res_w * -0.5) + fact_w * 0.5 + adv_x`. -/
def bay_ofx (res_w fact_w : ℚ) (cnt : ℕ) : ℚ :=
  res_w * (-0.5) + fact_w * 0.5 + ((cnt : ℚ) - 1) * fact_w

/-- The `open_frame` appended by the multi-pane loop body for counter
`cnt`: an inner frame of width `fact_w`, placed at `(ofx, 0, frame_height)`. -/
def multi_pane_frame (frame_width frame_height frame_th res_w res_h fact_w : ℚ)
    (cnt : ℕ) : Shape :=
  (frame_rectangular fact_w res_h frame_width frame_height frame_th).setPlacement
    ⟨bay_ofx res_w fact_w cnt, 0, frame_height⟩

/-- The `glass_s` appended by the multi-pane loop body for counter `cnt`:
a glass panel of width `fact_w`, placed at
`(ofx, (frame_th - glass_th) * 0.5, 0)`. -/
def multi_pane_glass (frame_width frame_height frame_th glass_th ef_w ef_h
    v_a res_w res_h fact_w : ℚ) (cnt : ℕ) : Shape :=
  (glass fact_w res_h ef_w ef_h v_a frame_th glass_th).setPlacement
    ⟨bay_ofx res_w fact_w cnt, (frame_th - glass_th) * 0.5, 0⟩

/-- The list `[f 0, g 0, f 1, g 1, ..., f (n-1), g (n-1)]`: the appends
performed by a loop whose 1-based counter runs from 1 to `n`, pushing
`f` then `g` each iteration (here `f k`/`g k` stand for counter `k+1`). -/
def pairConcat {α : Type} (f g : ℕ → α) : ℕ → List α
  | 0 => []
  | n + 1 => pairConcat f g n ++ [f n, g n]

/-- `window_single_pane(opening_th, opening_height, opening_width,
frame_width, frame_th, glass_th, n_pan)`: the full window orchestrator.
The Python `while` loop with counter `cnt = 1 .. n_pan` appending one
`open_frame` and one `glass_s` per iteration is rendered by
`pairConcat`; the two bare `return` statements become `shape = none`. -/
def window_single_pane (opening_th opening_height opening_width
    frame_width frame_th glass_th : ℚ) (n_pan : ℤ) :
    Except String WindowResult :=
  let frame_height := frame_width
  let frame_ov_wid := (n_pan : ℚ) * (frame_width * 2) + frame_width * 2
  match pydiv (opening_width - frame_ov_wid) opening_width with
  | .error e => .error e
  | .ok light_fact =>
    let ef_w := frame_width * 2
    let ef_h := frame_height * 2
    let res_w := opening_width - ef_w
    let res_h := opening_height - ef_h
    let v_a : ℚ := 0
    if light_fact < 0.40 then
      .ok ⟨[warning_msg], none⟩
    else
      let fixed := frame_rectangular opening_width opening_height
        frame_width frame_height frame_th
      if n_pan = 0 then
        .ok ⟨[], none⟩
      else if n_pan = 1 then
        let ea_w := res_w
        let ea_h := res_h
        let open_frame := (frame_rectangular ea_w ea_h frame_width
          frame_height frame_th).setPlacement ⟨0, 0, frame_height⟩
        let glass_s := (glass ea_w ea_h ef_w ef_h v_a frame_th
          glass_th).setPlacement ⟨0, (frame_th - glass_th) * 0.5, 0⟩
        .ok ⟨[], some (.compound VZOR [fixed, open_frame, glass_s])⟩
      else if 1 < n_pan ∧ n_pan < 10 then
        let fact_w := res_w / (n_pan : ℚ)
        let bays := pairConcat
          (fun k => multi_pane_frame frame_width frame_height frame_th
            res_w res_h fact_w (k + 1))
          (fun k => multi_pane_glass frame_width frame_height frame_th
            glass_th ef_w ef_h v_a res_w res_h fact_w (k + 1))
          n_pan.toNat
        .ok ⟨[], some (.compound VZOR (fixed :: bays))⟩
      else
        .ok ⟨[], some (.compound VZOR [fixed])⟩

/-! ## Helper lemmas -/

theorem pairConcat_length {α : Type} (f g : ℕ → α) (n : ℕ) :
    (pairConcat f g n).length = 2 * n := by
  induction n with
  | zero => simp [pairConcat]
  | succ n ih => simp [pairConcat, ih]; omega

theorem pairConcat_getElem_even {α : Type} (f g : ℕ → α) (n k : ℕ)
    (hk : k < n) : (pairConcat f g n)[2 * k]? = some (f k) := by
  induction n with
  | zero => omega
  | succ n ih =>
    rcases Nat.lt_succ_iff_lt_or_eq.mp hk with h | h
    · rw [pairConcat, List.getElem?_append_left (by rw [pairConcat_length]; omega)]
      exact ih h
    · subst h
      rw [pairConcat, List.getElem?_append_right (by rw [pairConcat_length])]
      simp [pairConcat_length]

theorem pairConcat_getElem_odd {α : Type} (f g : ℕ → α) (n k : ℕ)
    (hk : k < n) : (pairConcat f g n)[2 * k + 1]? = some (g k) := by
  induction n with
  | zero => omega
  | succ n ih =>
    rcases Nat.lt_succ_iff_lt_or_eq.mp hk with h | h
    · rw [pairConcat, List.getElem?_append_left (by rw [pairConcat_length]; omega)]
      exact ih h
    · subst h
      rw [pairConcat, List.getElem?_append_right (by rw [pairConcat_length]; omega)]
      rw [pairConcat_length]
      have : 2 * k + 1 - 2 * k = 1 := by omega
      rw [this]
      rfl

/-! ## Claim theorems -/

/-- C9: `window_single_pane` never reads `opening_th`: two calls that
differ only in `opening_th` return identical results (warnings, abort
behaviour, and geometry all agree). -/
theorem opening_th_noninterference (t1 t2 opening_height opening_width
    frame_width frame_th glass_th : ℚ) (n_pan : ℤ) :
    window_single_pane t1 opening_height opening_width frame_width
      frame_th glass_th n_pan =
    window_single_pane t2 opening_height opening_width frame_width
      frame_th glass_th n_pan := rfl

/-- C10: the light-factor computation divides by `opening_width` before
any geometry is built, so the call fails with a division-by-zero error
precisely when `opening_width = 0`; for any other `opening_width` the
call returns normally. -/
theorem zero_opening_width_division_error (opening_th opening_height
    opening_width frame_width frame_th glass_th : ℚ) (n_pan : ℤ) :
    (window_single_pane opening_th opening_height opening_width
      frame_width frame_th glass_th n_pan = .error "ZeroDivisionError")
    ↔ opening_width = 0 := by
  unfold window_single_pane pydiv
  by_cases h : opening_width = 0
  · simp [h]
  · simp only [if_neg h]
    split_ifs <;> simp [h]

/-- C1: with `opening_width > 0`, `window_single_pane` prints the
"too many panes" warning and returns no geometry exactly when
`light_fact = (opening_width - frame_ov_wid) / opening_width < 0.40`
with `frame_ov_wid = n_pan * 2 * frame_width + 2 * frame_width`; in
particular with `opening_w = 1200` and `frame_w = 50` it builds geometry
at `n_pan = 4` and aborts at `n_pan = 9`. -/
theorem light_factor_abort_iff (opening_th opening_height opening_width
    frame_width frame_th glass_th : ℚ) (n_pan : ℤ)
    (hw : 0 < opening_width) :
    ((window_single_pane opening_th opening_height opening_width
        frame_width frame_th glass_th n_pan = .ok ⟨[warning_msg], none⟩)
      ↔ (opening_width - ((n_pan : ℚ) * (frame_width * 2) + frame_width * 2))
          / opening_width < 0.40)
    ∧ (∃ s, window_single_pane 300 1400 1200 50 50 21 4 = .ok ⟨[], some s⟩)
    ∧ window_single_pane 300 1400 1200 50 50 21 9 = .ok ⟨[warning_msg], none⟩ := by
  refine ⟨?_, ?_, ?_⟩
  · unfold window_single_pane pydiv
    simp only [if_neg hw.ne']
    split_ifs with h1 h2 h3 h4 <;>
      simp [h1, warning_msg]
  · norm_num [window_single_pane, pydiv]
  · norm_num [window_single_pane, pydiv]

/-- C1 witness: the iff instantiated at the concrete inputs of the claim. -/
theorem light_factor_abort_iff_witness :
    0 < (1200 : ℚ) ∧
    (((window_single_pane 300 1400 1200 50 50 21 4 = .ok ⟨[warning_msg], none⟩)
      ↔ (1200 - (((4 : ℤ) : ℚ) * (50 * 2) + 50 * 2)) / 1200 < 0.40)
    ∧ (∃ s, window_single_pane 300 1400 1200 50 50 21 4 = .ok ⟨[], some s⟩)
    ∧ window_single_pane 300 1400 1200 50 50 21 9 = .ok ⟨[warning_msg], none⟩) :=
  ⟨by norm_num, light_factor_abort_iff 300 1400 1200 50 50 21 4 (by norm_num)⟩

/-- C6: for `opening_w = 1200, opening_h = 1400, frame_w = 50,
frame_th = 50, glass_th = 21` and one pane, the returned compound has 3
top-level parts — the outer frame compound (4 legs), the inner frame
compound (4 legs), and the glass solid — 9 solids when flattened. -/
theorem single_pane_solid_counts :
    ∃ w, window_single_pane 300 1400 1200 50 50 21 1 = .ok ⟨[], some w⟩
      ∧ w.topParts.length = 3
      ∧ w.topParts.map Shape.solidCount = [4, 4, 1]
      ∧ w.solidCount = 9 :=
  ⟨Shape.compound VZOR
      [frame_rectangular 1200 1400 50 50 50,
       (frame_rectangular 1100 1300 50 50 50).setPlacement ⟨0, 0, 50⟩,
       (glass 1100 1300 100 100 0 50 21).setPlacement ⟨0, 29 / 2, 0⟩],
    by norm_num [window_single_pane, pydiv, frame_rectangular, glass,
      Shape.setPlacement],
    by decide, by decide, by decide⟩

/-- C2 counterexample: with `opening_w = 10000` and `frame_w = 50`,
`n_pan = 10` passes the light-factor check, yet `window_single_pane`
does not yield a no-geometry "unsupported" signal: it silently returns
a compound containing only the outer fixed frame (4 solids). -/
theorem boundary_fallthrough_cex :
    ¬ ((10000 - (((10 : ℤ) : ℚ) * (50 * 2) + 50 * 2)) / 10000 < 0.40)
    ∧ window_single_pane 300 1400 10000 50 50 21 10 =
        .ok ⟨[], some (.compound VZOR [frame_rectangular 10000 1400 50 50 50])⟩
    ∧ (Shape.compound VZOR [frame_rectangular 10000 1400 50 50 50]).solidCount = 4 :=
  ⟨by norm_num, by norm_num [window_single_pane, pydiv], by decide⟩

/-- C2 (amended): for parameter sets passing the light-factor check,
`n_pan = 0` yields the silent no-geometry signal (no crash, no
geometry), but `n_pan >= 10` and `n_pan < 0` do NOT yield an
unsupported signal: they fall through and silently return a compound
containing only the outer fixed frame. -/
theorem boundary_fallthrough (opening_th opening_height opening_width
    frame_width frame_th glass_th : ℚ) (n_pan : ℤ)
    (hw : opening_width ≠ 0)
    (hl : ¬ ((opening_width - ((n_pan : ℚ) * (frame_width * 2) + frame_width * 2))
        / opening_width < 0.40)) :
    (n_pan = 0 → window_single_pane opening_th opening_height opening_width
        frame_width frame_th glass_th n_pan = .ok ⟨[], none⟩)
    ∧ (10 ≤ n_pan ∨ n_pan < 0 → window_single_pane opening_th opening_height
        opening_width frame_width frame_th glass_th n_pan =
        .ok ⟨[], some (.compound VZOR [frame_rectangular opening_width
          opening_height frame_width frame_width frame_th])⟩) := by
  constructor
  · intro h0
    unfold window_single_pane pydiv
    simp only [if_neg hw, if_neg hl, if_pos h0]
  · intro hout
    unfold window_single_pane pydiv
    have h0 : ¬ n_pan = 0 := by omega
    have h1 : ¬ n_pan = 1 := by omega
    have h2 : ¬ (1 < n_pan ∧ n_pan < 10) := by omega
    simp only [if_neg hw, if_neg hl, if_neg h0, if_neg h1, if_neg h2]

/-- C2 witness: the amended behaviour at `opening_w = 10000`,
`frame_w = 50`, `n_pan = 10` (light factor 0.89). -/
theorem boundary_fallthrough_witness :
    (10000 : ℚ) ≠ 0
    ∧ ¬ ((10000 - (((10 : ℤ) : ℚ) * (50 * 2) + 50 * 2)) / 10000 < 0.40)
    ∧ (((10 : ℤ) = 0 → window_single_pane 300 1400 10000 50 50 21 10 = .ok ⟨[], none⟩)
      ∧ (10 ≤ (10 : ℤ) ∨ (10 : ℤ) < 0 → window_single_pane 300 1400 10000 50 50 21 10 =
          .ok ⟨[], some (.compound VZOR [frame_rectangular 10000 1400 50 50 50])⟩)) :=
  ⟨by norm_num, by norm_num,
    boundary_fallthrough 300 1400 10000 50 50 21 10 (by norm_num) (by norm_num)⟩

/-- C3 counterexample: for `glass(opening_w = 10, opening_h = 10,
frame_extent_w = 2, frame_extent_h = 4, reveal = 0, ...)` the bottom
edge sits at `z = frame_extent_w - reveal = 2` and the inset height is
`opening_h - frame_extent_h + 2*reveal = 6`, so the claim puts the top
edge at `z = 8`; the code puts it at `z = 10` (it anchors the top on
`frame_extent_h`, not on the bottom edge). -/
theorem glass_top_edge_cex :
    (glass 10 10 2 4 0 1 1).loopPoints.map Vec3.z = [2, 2, 10, 10, 2]
    ∧ ((2 : ℚ) - 0) + (10 - 4 + 2 * 0) ≠ 10 := by
  constructor
  · simp [glass, Shape.loopPoints]
  · norm_num

/-- C3 (amended): the glass panel has width
`opening_w - frame_extent_w + 2*reveal`; its bottom edge sits at
`z = frame_extent_w - reveal`; its top edge sits at
`(frame_extent_h - reveal) + (opening_h - frame_extent_h + 2*reveal)`,
so the vertical span exceeds the inset height by
`frame_extent_h - frame_extent_w` and the original claim holds exactly
when `frame_extent_w = frame_extent_h`. -/
theorem glass_panel_geometry (ea_w ea_h ef_w ef_h v_a frame_th glass_th : ℚ) :
    ∃ p0 p1 p2 p3 : Vec3,
      glass ea_w ea_h ef_w ef_h v_a frame_th glass_th =
        .solid VZOR [p0, p1, p2, p3, p0] ⟨0, glass_th, 0⟩
      ∧ p1.x - p0.x = ea_w - ef_w + 2 * v_a
      ∧ p0.z = ef_w - v_a ∧ p1.z = p0.z
      ∧ p2.z = (ef_h - v_a) + (ea_h - ef_h + 2 * v_a) ∧ p3.z = p2.z
      ∧ p3.x = p0.x ∧ p2.x = p1.x
      ∧ p2.z - p0.z = (ea_h - ef_h + 2 * v_a) + (ef_h - ef_w) := by
  refine ⟨_, _, _, _, rfl, ?_, ?_, rfl, ?_, rfl, rfl, rfl, ?_⟩ <;>
    (show _ = _) <;> ring_nf

/-- C4 counterexample: for `frame_rectangular(10, 10, border_w = 1,
border_h = 2, 1)` the inner rectangle's bottom edge sits at `z = 1`
(inset by `border_w`), not at `z = border_h = 2` as the claim requires,
and its top edge sits at `z = 7` (inset 3 from the outer top), not at
`z = 10 - border_h = 8`. -/
theorem frame_inner_inset_cex :
    (frame_rectangular 10 10 1 2 1).topParts.map
        (fun s => s.loopPoints.map Vec3.z) =
      [[0, 0, 1, 1, 0], [0, 10, 7, 1, 0], [10, 10, 7, 7, 10], [10, 0, 1, 7, 10]]
    ∧ (1 : ℚ) ≠ 2 ∧ (10 : ℚ) - 7 ≠ 2 := by
  refine ⟨?_, by norm_num, by norm_num⟩
  simp [frame_rectangular, Shape.topParts, Shape.loopPoints]
  norm_num

/-- C4 (amended): the inner rectangle is inset from the outer one by
exactly `border_w` on each horizontal side; vertically, its bottom edge
is inset by `border_w` (not `border_h`) and its top edge by
`2*border_h - border_w`, so the original claim holds exactly when
`border_w = border_h`. -/
theorem frame_inner_inset (tel_w tel_h tel_ww tel_wh tel_th : ℚ)
    (h1 : 0 < tel_ww) (h2 : tel_ww < tel_w / 2)
    (h3 : 0 < tel_wh) (h4 : tel_wh < tel_h / 2) :
    ∃ ep0 ep1 ep2 ep3 ip0 ip1 ip2 ip3 : Vec3,
      frame_rectangular tel_w tel_h tel_ww tel_wh tel_th =
        .compound VZOR
          [.solid VZOR [ep0, ep1, ip1, ip0, ep0] ⟨0, tel_th, 0⟩,
           .solid VZOR [ep1, ep2, ip2, ip1, ep1] ⟨0, tel_th, 0⟩,
           .solid VZOR [ep2, ep3, ip3, ip2, ep2] ⟨0, tel_th, 0⟩,
           .solid VZOR [ep3, ep0, ip0, ip3, ep3] ⟨0, tel_th, 0⟩]
      ∧ ep0.z = 0 ∧ ep2.z = tel_h
      ∧ ip0.x - ep0.x = tel_ww ∧ ep1.x - ip1.x = tel_ww
      ∧ ip2.x = ip1.x ∧ ip3.x = ip0.x
      ∧ ip0.z - ep0.z = tel_ww ∧ ip1.z = ip0.z
      ∧ ep2.z - ip2.z = 2 * tel_wh - tel_ww ∧ ip3.z = ip2.z := by
  refine ⟨_, _, _, _, _, _, _, _, rfl, rfl, rfl, ?_, ?_, rfl, rfl, ?_, rfl, ?_, rfl⟩ <;>
    (show _ = _) <;> ring_nf

/-- C4 witness: the amended inset facts at `frame_rectangular(10, 10, 1, 2, 1)`. -/
theorem frame_inner_inset_witness :
    (0 < (1 : ℚ) ∧ (1 : ℚ) < 10 / 2 ∧ 0 < (2 : ℚ) ∧ (2 : ℚ) < 10 / 2)
    ∧ (∃ ep0 ep1 ep2 ep3 ip0 ip1 ip2 ip3 : Vec3,
      frame_rectangular 10 10 1 2 1 =
        .compound VZOR
          [.solid VZOR [ep0, ep1, ip1, ip0, ep0] ⟨0, 1, 0⟩,
           .solid VZOR [ep1, ep2, ip2, ip1, ep1] ⟨0, 1, 0⟩,
           .solid VZOR [ep2, ep3, ip3, ip2, ep2] ⟨0, 1, 0⟩,
           .solid VZOR [ep3, ep0, ip0, ip3, ep3] ⟨0, 1, 0⟩]
      ∧ ep0.z = 0 ∧ ep2.z = 10
      ∧ ip0.x - ep0.x = 1 ∧ ep1.x - ip1.x = 1
      ∧ ip2.x = ip1.x ∧ ip3.x = ip0.x
      ∧ ip0.z - ep0.z = 1 ∧ ip1.z = ip0.z
      ∧ ep2.z - ip2.z = 2 * 2 - 1 ∧ ip3.z = ip2.z) :=
  ⟨⟨by norm_num, by norm_num, by norm_num, by norm_num⟩,
    frame_inner_inset 10 10 1 2 1 (by norm_num) (by norm_num)
      (by norm_num) (by norm_num)⟩

/-- C5: for `2 <= n_pan <= 9` passing the light-factor check, the result
is the outer fixed frame followed by `n_pan` bays in increasing order,
each bay one inner frame and one glass panel of the common width
`fact_w = res_w / n_pan` placed at
`ofx = -res_w/2 + fact_w/2 + (i-1)*fact_w` for 1-based bay index `i`,
and the per-bay widths sum back to the residual width:
`n_pan * fact_w = opening_w - 2*frame_w`. -/
theorem multi_pane_partition (opening_th opening_height opening_width
    frame_width frame_th glass_th : ℚ) (n_pan : ℤ)
    (h2 : 2 ≤ n_pan) (h9 : n_pan ≤ 9)
    (hw : opening_width ≠ 0)
    (hl : ¬ ((opening_width - ((n_pan : ℚ) * (frame_width * 2) + frame_width * 2))
        / opening_width < 0.40)) :
    ∃ bays : List Shape,
      window_single_pane opening_th opening_height opening_width
          frame_width frame_th glass_th n_pan =
        .ok ⟨[], some (.compound VZOR (frame_rectangular opening_width
          opening_height frame_width frame_width frame_th :: bays))⟩
      ∧ bays.length = 2 * n_pan.toNat
      ∧ (∀ k, k < n_pan.toNat →
          bays[2 * k]? = some ((frame_rectangular
              ((opening_width - frame_width * 2) / (n_pan : ℚ))
              (opening_height - frame_width * 2) frame_width frame_width
              frame_th).setPlacement
            ⟨bay_ofx (opening_width - frame_width * 2)
              ((opening_width - frame_width * 2) / (n_pan : ℚ)) (k + 1), 0, frame_width⟩)
          ∧ bays[2 * k + 1]? = some ((glass
              ((opening_width - frame_width * 2) / (n_pan : ℚ))
              (opening_height - frame_width * 2) (frame_width * 2)
              (frame_width * 2) 0 frame_th glass_th).setPlacement
            ⟨bay_ofx (opening_width - frame_width * 2)
              ((opening_width - frame_width * 2) / (n_pan : ℚ)) (k + 1),
              (frame_th - glass_th) * 0.5, 0⟩))
      ∧ (∀ i : ℕ, bay_ofx (opening_width - frame_width * 2)
            ((opening_width - frame_width * 2) / (n_pan : ℚ)) i
          = -((opening_width - frame_width * 2) / 2)
            + ((opening_width - frame_width * 2) / (n_pan : ℚ)) / 2
            + ((i : ℚ) - 1) * ((opening_width - frame_width * 2) / (n_pan : ℚ)))
      ∧ (n_pan : ℚ) * ((opening_width - frame_width * 2) / (n_pan : ℚ))
          = opening_width - 2 * frame_width := by
  have hn0 : ¬ n_pan = 0 := by omega
  have hn1 : ¬ n_pan = 1 := by omega
  have hmulti : 1 < n_pan ∧ n_pan < 10 := by omega
  have hcast : (n_pan : ℚ) ≠ 0 := Int.cast_ne_zero.mpr (by omega)
  refine ⟨pairConcat
      (fun k => multi_pane_frame frame_width frame_width frame_th
        (opening_width - frame_width * 2) (opening_height - frame_width * 2)
        ((opening_width - frame_width * 2) / (n_pan : ℚ)) (k + 1))
      (fun k => multi_pane_glass frame_width frame_width frame_th glass_th
        (frame_width * 2) (frame_width * 2) 0
        (opening_width - frame_width * 2) (opening_height - frame_width * 2)
        ((opening_width - frame_width * 2) / (n_pan : ℚ)) (k + 1))
      n_pan.toNat, ?_, ?_, ?_, ?_, ?_⟩
  · unfold window_single_pane pydiv
    simp only [if_neg hw, if_neg hl, if_neg hn0, if_neg hn1, if_pos hmulti]
  · rw [pairConcat_length]
  · intro k hk
    constructor
    · rw [pairConcat_getElem_even _ _ _ _ hk]
      rfl
    · rw [pairConcat_getElem_odd _ _ _ _ hk]
      rfl
  · intro i
    unfold bay_ofx
    ring_nf
  · field_simp
    ring

/-- C5 witness: the partition property instantiated at
`opening_w = 1200, opening_h = 1400, frame_w = 50, n_pan = 2`
(light factor 0.75). -/
theorem multi_pane_partition_witness :
    ((2 : ℤ) ≤ 2 ∧ (2 : ℤ) ≤ 9 ∧ (1200 : ℚ) ≠ 0
      ∧ ¬ ((1200 - (((2 : ℤ) : ℚ) * (50 * 2) + 50 * 2)) / 1200 < 0.40))
    ∧ (∃ bays : List Shape,
      window_single_pane 300 1400 1200 50 50 21 2 =
        .ok ⟨[], some (.compound VZOR (frame_rectangular 1200 1400 50 50 50 :: bays))⟩
      ∧ bays.length = 2 * (2 : ℤ).toNat
      ∧ (∀ k, k < (2 : ℤ).toNat →
          bays[2 * k]? = some ((frame_rectangular
              ((1200 - 50 * 2) / ((2 : ℤ) : ℚ)) (1400 - 50 * 2) 50 50
              50).setPlacement
            ⟨bay_ofx (1200 - 50 * 2) ((1200 - 50 * 2) / ((2 : ℤ) : ℚ)) (k + 1), 0, 50⟩)
          ∧ bays[2 * k + 1]? = some ((glass
              ((1200 - 50 * 2) / ((2 : ℤ) : ℚ)) (1400 - 50 * 2) (50 * 2)
              (50 * 2) 0 50 21).setPlacement
            ⟨bay_ofx (1200 - 50 * 2) ((1200 - 50 * 2) / ((2 : ℤ) : ℚ)) (k + 1),
              (50 - 21) * 0.5, 0⟩))
      ∧ (∀ i : ℕ, bay_ofx (1200 - 50 * 2) ((1200 - 50 * 2) / ((2 : ℤ) : ℚ)) i
          = -((1200 - 50 * 2) / 2) + ((1200 - 50 * 2) / ((2 : ℤ) : ℚ)) / 2
            + ((i : ℚ) - 1) * ((1200 - 50 * 2) / ((2 : ℤ) : ℚ)))
      ∧ ((2 : ℤ) : ℚ) * ((1200 - 50 * 2) / ((2 : ℤ) : ℚ)) = 1200 - 2 * 50) :=
  ⟨⟨by norm_num, by norm_num, by norm_num, by norm_num⟩,
    multi_pane_partition 300 1400 1200 50 50 21 2 (by norm_num) (by norm_num)
      (by norm_num) (by norm_num)⟩

/-- C7: for even `n_pan` in `[2, 9]` passing the light-factor check, the
bay x-offsets are symmetric about `x = 0`: the offset of bay `i` is the
negation of the offset of bay `n_pan + 1 - i`. -/
theorem bay_offsets_symmetric (opening_width frame_width : ℚ)
    (n_pan : ℤ) (i : ℕ)
    (heven : Even n_pan) (h2 : 2 ≤ n_pan) (h9 : n_pan ≤ 9)
    (hw : opening_width ≠ 0)
    (hl : ¬ ((opening_width - ((n_pan : ℚ) * (frame_width * 2) + frame_width * 2))
        / opening_width < 0.40))
    (hi1 : 1 ≤ i) (hin : i ≤ n_pan.toNat) :
    bay_ofx (opening_width - frame_width * 2)
        ((opening_width - frame_width * 2) / (n_pan : ℚ)) i
      = - bay_ofx (opening_width - frame_width * 2)
          ((opening_width - frame_width * 2) / (n_pan : ℚ))
          (n_pan.toNat + 1 - i) := by
  have hcast : (n_pan : ℚ) ≠ 0 := Int.cast_ne_zero.mpr (by omega)
  have hm : ((n_pan.toNat : ℕ) : ℚ) = (n_pan : ℚ) := by
    rw [show ((n_pan.toNat : ℕ) : ℚ) = ((n_pan.toNat : ℤ) : ℚ) by push_cast; rfl,
      Int.toNat_of_nonneg (by omega : (0 : ℤ) ≤ n_pan)]
  unfold bay_ofx
  rw [Nat.cast_sub (by omega : i ≤ n_pan.toNat + 1)]
  push_cast [hm]
  field_simp
  ring

/-- C7 witness: symmetry at `opening_w = 1200, frame_w = 50, n_pan = 2,
i = 1` (offsets -275 and 275). -/
theorem bay_offsets_symmetric_witness :
    (Even (2 : ℤ) ∧ (2 : ℤ) ≤ 2 ∧ (2 : ℤ) ≤ 9 ∧ (1200 : ℚ) ≠ 0
      ∧ ¬ ((1200 - (((2 : ℤ) : ℚ) * (50 * 2) + 50 * 2)) / 1200 < 0.40)
      ∧ 1 ≤ 1 ∧ 1 ≤ (2 : ℤ).toNat)
    ∧ bay_ofx (1200 - 50 * 2) ((1200 - 50 * 2) / ((2 : ℤ) : ℚ)) 1
      = - bay_ofx (1200 - 50 * 2) ((1200 - 50 * 2) / ((2 : ℤ) : ℚ))
          ((2 : ℤ).toNat + 1 - 1) :=
  ⟨⟨⟨1, by norm_num⟩, by norm_num, by norm_num, by norm_num, by norm_num,
      le_refl 1, by norm_num⟩,
    bay_offsets_symmetric 1200 50 2 1 ⟨1, by norm_num⟩ (by norm_num)
      (by norm_num) (by norm_num) (by norm_num) (le_refl 1) (by norm_num)⟩

/-- C8: each of the four frame legs is the loop
outer-start, outer-end, inner-end, inner-start, closed back to the
first outer corner (indices cyclic mod 4), each filled and extruded by
`depth` along the depth (y) axis, and the four leg solids are grouped
in one compound (they are separate parts, not a boolean union). -/
theorem frame_loops_ordering (tel_w tel_h tel_ww tel_wh tel_th : ℚ) :
    ∃ ep ip : ℕ → Vec3,
      frame_rectangular tel_w tel_h tel_ww tel_wh tel_th =
        .compound VZOR ((List.range 4).map (fun k =>
          .solid VZOR [ep k, ep ((k + 1) % 4), ip ((k + 1) % 4), ip k, ep k]
            ⟨0, tel_th, 0⟩))
      ∧ ep 0 = ⟨tel_w * (-0.5), 0, 0⟩
      ∧ ep 1 = ⟨tel_w * 0.5, 0, 0⟩
      ∧ ep 2 = ⟨tel_w * 0.5, 0, tel_h⟩
      ∧ ep 3 = ⟨tel_w * (-0.5), 0, tel_h⟩
      ∧ ip 0 = ⟨(tel_w - tel_ww * 2) * (-0.5), 0, tel_ww⟩
      ∧ ip 1 = ⟨(tel_w - tel_ww * 2) * 0.5, 0, tel_ww⟩
      ∧ ip 2 = ⟨(tel_w - tel_ww * 2) * 0.5, 0, tel_ww + (tel_h - tel_wh * 2)⟩
      ∧ ip 3 = ⟨(tel_w - tel_ww * 2) * (-0.5), 0, tel_ww + (tel_h - tel_wh * 2)⟩ := by
  refine ⟨fun k =>
      if k = 0 then ⟨tel_w * (-0.5), 0, 0⟩
      else if k = 1 then ⟨tel_w * 0.5, 0, 0⟩
      else if k = 2 then ⟨tel_w * 0.5, 0, tel_h⟩
      else ⟨tel_w * (-0.5), 0, tel_h⟩,
    fun k =>
      if k = 0 then ⟨(tel_w - tel_ww * 2) * (-0.5), 0, tel_ww⟩
      else if k = 1 then ⟨(tel_w - tel_ww * 2) * 0.5, 0, tel_ww⟩
      else if k = 2 then ⟨(tel_w - tel_ww * 2) * 0.5, 0, tel_ww + (tel_h - tel_wh * 2)⟩
      else ⟨(tel_w - tel_ww * 2) * (-0.5), 0, tel_ww + (tel_h - tel_wh * 2)⟩,
    ?_, rfl, rfl, rfl, rfl, rfl, rfl, rfl, rfl⟩
  rfl

end WindowPresets
